import Mathlib

/-!
Verification development for the Mood-art-generator backend.

The definitions below are a shallow embedding of the JavaScript source:
`routes/artRoutes.js` (art generation orchestration, route handlers),
`models/Art.js` (the ArtPiece schema and its validation),
`middleware/auth.js` (required-auth middleware) and the optional-auth
middleware defined inside `routes/artRoutes.js`.

Strings are manipulated through character-list helpers so that every
definition evaluates by kernel reduction.  Optional request/environment
fields are `Option String`, with JavaScript truthiness (`undefined` and
`""` are falsy) made explicit, including the coercion of `undefined`
to the literal text "undefined" under string concatenation, the full
JavaScript `trim()` whitespace set, and the prototype-chain hits of the
mock object literal's property read (`constructor` and `__proto__` are
truthy inherited values, not misses).
-/

namespace MoodArt

/-- JavaScript `s.toLowerCase()`. -/
def lowerStr (s : String) : String := String.mk (s.data.map Char.toLower)

/-- The characters JavaScript `trim()` strips: tab, LF, VT, FF, CR,
space, NBSP, ZWNBSP/BOM, and the Unicode space separators and line
terminators. -/
def jsWhitespace (c : Char) : Bool :=
  c.toNat == 0x09 || c.toNat == 0x0A || c.toNat == 0x0B || c.toNat == 0x0C ||
    c.toNat == 0x0D || c.toNat == 0x20 || c.toNat == 0xA0 || c.toNat == 0x1680 ||
    (decide (0x2000 ≤ c.toNat) && decide (c.toNat ≤ 0x200A)) ||
    c.toNat == 0x2028 || c.toNat == 0x2029 || c.toNat == 0x202F ||
    c.toNat == 0x205F || c.toNat == 0x3000 || c.toNat == 0xFEFF

/-- JavaScript `s.trim()`: drop leading and trailing JS whitespace. -/
def trimStr (s : String) : String :=
  String.mk (((s.data.dropWhile jsWhitespace).reverse.dropWhile jsWhitespace).reverse)

/-- JavaScript `s.split(',')[0]`: the prefix of `s` before the first comma
(`s` itself when no comma occurs). -/
def beforeFirstComma (s : String) : String :=
  String.mk (s.data.takeWhile (fun c => c ≠ ','))

/-- JavaScript `xs.join(', ')`. -/
def joinCommaSpace : List String → String
  | [] => ""
  | [x] => x
  | x :: y :: xs => x ++ ", " ++ joinCommaSpace (y :: xs)

/-- JavaScript truthiness of a possibly-absent string field
(`undefined` and the empty string are falsy). -/
def truthyS : Option String → Bool
  | none => false
  | some s => !(s == "")

/-- JavaScript truthiness of `colors && colors.length > 0`. -/
def truthyColors : Option (List String) → Bool
  | none => false
  | some l => decide (0 < l.length)

/-- JavaScript string coercion: `undefined` becomes the text
"undefined" when it meets string concatenation or a template literal. -/
def jsCoerce : Option String → String
  | none => "undefined"
  | some s => s

/-! ## Environment configuration (read from `.env` by `artRoutes.js`) -/

/-- The five provider-configuration values consulted by
`generateArtFromAPI`: the generation endpoint and token, and the three
Cloudinary upload credentials.  `none` models an unset variable. -/
structure Env where
  ART_API_URL : Option String
  ART_API_TOKEN : Option String
  CLOUDINARY_CLOUD_NAME : Option String
  CLOUDINARY_API_KEY : Option String
  CLOUDINARY_API_SECRET : Option String
deriving DecidableEq, Repr

/-- Negation of the fallback test
`!ART_API_URL || !ART_API_TOKEN || !cloud_name || !api_key || !api_secret`:
the real path is taken exactly when all five values are truthy. -/
def configComplete (env : Env) : Bool :=
  truthyS env.ART_API_URL && truthyS env.ART_API_TOKEN &&
    truthyS env.CLOUDINARY_CLOUD_NAME && truthyS env.CLOUDINARY_API_KEY &&
    truthyS env.CLOUDINARY_API_SECRET

/-! ## Mock image selection (the fallback branch of `generateArtFromAPI`) -/

/-- The `mockImageUrls` object literal, as an association list. -/
def mockImageUrls : List (String × String) :=
  [ ("happy", "https://placehold.co/600x450/FFD700/000000?text=Happy+Art"),
    ("sad", "https://placehold.co/600x450/87CEEB/FFFFFF?text=Sad+Art"),
    ("calm", "https://placehold.co/600x450/90EE90/000000?text=Calm+Art"),
    ("excited", "https://placehold.co/600x450/FF6347/FFFFFF?text=Excited+Art"),
    ("angry", "https://placehold.co/600x450/DC143C/FFFFFF?text=Angry+Art"),
    ("inspired", "https://placehold.co/600x450/BA55D3/FFFFFF?text=Inspired+Art"),
    ("mixed", "https://placehold.co/600x450/CCCCCC/000000?text=Mixed+Art") ]

/-- The `'default'` entry of `mockImageUrls`, returned on a missed lookup. -/
def mockDefaultUrl : String := "https://placehold.co/600x450/A9A9A9/FFFFFF?text=Generated+Art"

/-- `prompt.toLowerCase().split(',')[0].trim()` — the `cleanedPrompt`
computed in the mock branch. -/
def cleanPrompt (p : String) : String := trimStr (beforeFirstComma (lowerStr p))

/-- A value the generation logic can hand back as the "image": a string
URL, or — through the mock object literal's prototype chain — one of the
two truthy inherited `Object.prototype` members whose names are entirely
lowercase and therefore reachable from a lowercased prompt key:
`constructor` (the `Object` constructor function) and `__proto__`
(the `Object.prototype` object itself). -/
inductive ImageRef
  | url (s : String)
  | objectCtorFn
  | objectProtoObj
deriving DecidableEq, Repr

/-- `mockImageUrls[cleanedPrompt] || mockImageUrls['default']` — the mock
image reference chosen for a prompt (the Mock Image Selector).  The JS
property read falls through to the prototype chain: an own key yields
its placeholder URL, the inherited keys `constructor` and `__proto__`
yield truthy non-string values that `||` does not replace, and every
other key yields `undefined` and falls back to the default placeholder.
(All other `Object.prototype` member names contain an uppercase letter
and are unreachable from the lowercased key.) -/
def selectMock (p : String) : ImageRef :=
  let k := cleanPrompt p
  match mockImageUrls.lookup k with
  | some u => .url u
  | none =>
      if k = "constructor" then .objectCtorFn
      else if k = "__proto__" then .objectProtoObj
      else .url mockDefaultUrl

/-! ## Error classification on the real generation path -/

/-- Shape of the caught JavaScript error: `error.response.status` when an
HTTP response arrived, and `error.code` for network-level failures. -/
structure JsError where
  responseStatus : Option Nat
  code : Option String
deriving DecidableEq, Repr

/-- The four user-facing failure classifications of the catch block. -/
inductive ErrClass
  | authFailure
  | rateLimited
  | connectivityFailure
  | generationFailure
deriving DecidableEq, Repr

/-- The if-chain of the catch block in `generateArtFromAPI`:
status 401, then status 429, then `ECONNREFUSED`/`ENOTFOUND`,
then the generic fallback. -/
def classifyApiError (e : JsError) : ErrClass :=
  if e.responseStatus = some 401 then .authFailure
  else if e.responseStatus = some 429 then .rateLimited
  else if e.code = some "ECONNREFUSED" ∨ e.code = some "ENOTFOUND" then .connectivityFailure
  else .generationFailure

/-- The literal message thrown for each classification. -/
def errMessage : ErrClass → String
  | .authFailure => "AI API authentication failed. Check your ART_API_TOKEN."
  | .rateLimited => "AI API rate limit exceeded. Please try again later."
  | .connectivityFailure => "Could not connect to AI API. Check ART_API_URL or your internet connection."
  | .generationFailure => "Failed to generate art from external service or upload image."

/-! ## The art generation orchestrator `generateArtFromAPI` -/

/-- The `prompt` argument as a JavaScript value: absent, a non-string
value, or a string.  All non-strings fail the validation
`!prompt || typeof prompt !== 'string' || prompt.trim() === ''`. -/
inductive PromptArg
  | undef
  | nonString
  | str (s : String)
deriving DecidableEq, Repr

/-- Failures thrown by `generateArtFromAPI`: the invalid-prompt error or
a classified external-call error. -/
inductive GenFailure
  | invalidPrompt
  | api (c : ErrClass)
deriving DecidableEq, Repr

/-- The two external calls the real path can issue. -/
inductive CallKind
  | genApi
  | upload
deriving DecidableEq, Repr

/-- Response of the external generation provider: the optional
content-type header and the base64 rendering of the binary body. -/
structure GenResponse where
  contentType : Option String
  base64Data : String
deriving DecidableEq, Repr

/-- Behaviour of the two external providers during one request:
the generation call's outcome, and the upload outcome as a function of
the submitted data URI. -/
structure World where
  genResult : Except JsError GenResponse
  uploadResult : String → Except JsError String

/-- Decidable equality for `Except`, used to evaluate outcomes. -/
instance {ε α : Type} [DecidableEq ε] [DecidableEq α] : DecidableEq (Except ε α)
  | .error a, .error b =>
      if h : a = b then .isTrue (congrArg Except.error h)
      else .isFalse (fun hh => h (Except.error.inj hh))
  | .error _, .ok _ => .isFalse (fun hh => Except.noConfusion hh)
  | .ok _, .error _ => .isFalse (fun hh => Except.noConfusion hh)
  | .ok a, .ok b =>
      if h : a = b then .isTrue (congrArg Except.ok h)
      else .isFalse (fun hh => h (Except.ok.inj hh))

/-- The data URI built from the generation response:
`data:<contentType or image/png>;base64,<data>`. -/
def dataURIOf (resp : GenResponse) : String :=
  "data:" ++ (resp.contentType.getD "image/png") ++ (";base64," ++ resp.base64Data)

/-- Observable outcome of one `generateArtFromAPI` call: the returned
image reference or thrown failure, the list of external calls issued,
and the artificial delay applied (milliseconds). -/
structure GenOutcome where
  result : Except GenFailure ImageRef
  calls : List CallKind
  delayMs : Nat
deriving DecidableEq, Repr

/-- Shallow embedding of `generateArtFromAPI`: validate the prompt, fall
back to the mock selector (with the 3000 ms simulated delay) when the
provider configuration is incomplete, otherwise call the generation
provider and then the upload provider, classifying any failure. -/
def generateArtFromAPI (env : Env) (w : World) (prompt : PromptArg) : GenOutcome :=
  match prompt with
  | .undef => { result := .error .invalidPrompt, calls := [], delayMs := 0 }
  | .nonString => { result := .error .invalidPrompt, calls := [], delayMs := 0 }
  | .str s =>
    if trimStr s = "" then
      { result := .error .invalidPrompt, calls := [], delayMs := 0 }
    else if configComplete env then
      match w.genResult with
      | .error e =>
          { result := .error (.api (classifyApiError e)), calls := [.genApi], delayMs := 0 }
      | .ok resp =>
          match w.uploadResult (dataURIOf resp) with
          | .error e =>
              { result := .error (.api (classifyApiError e)),
                calls := [.genApi, .upload], delayMs := 0 }
          | .ok url =>
              { result := .ok (.url url), calls := [.genApi, .upload], delayMs := 0 }
    else
      { result := .ok (selectMock s), calls := [], delayMs := 3000 }

/-- Mongoose's cast of the orchestrator's return value to the String
`imageUrl` path on `new Art({...})`: a string is kept; the inherited
`Object` constructor is a function with its own `toString` and casts to
its source text; the plain `Object.prototype` object has only the
default `toString` and fails the cast (a CastError at save). -/
def castImageRef : ImageRef → Option String
  | .url s => some s
  | .objectCtorFn => some "function Object() { [native code] }"
  | .objectProtoObj => none

/-! ## The ArtPiece schema (`models/Art.js`) and store -/

/-- The enumerated mood values of `artSchema.mood`. -/
def moodEnumValues : List String :=
  ["Happy", "Sad", "Calm", "Excited", "Angry", "Inspired", "Mixed"]

/-- One persisted `Art` document.  `userId`/`collaborators` keep user ids
as strings; `createdAt` is a timestamp. -/
structure ArtDoc where
  id : Nat
  userId : Option String
  mood : String
  imageUrl : String
  prompt : String
  style : String
  colors : List String
  votes : Nat
  collaborators : List String
  createdAt : Nat
deriving DecidableEq, Repr

/-- Schema validation run by `save()`: `mood` is required and must be one
of the enumerated values (the schema's `trim` has already been applied at
construction), and `imageUrl` is required. -/
def artValid (a : ArtDoc) : Bool :=
  moodEnumValues.contains a.mood && !(a.mood == "") && !(a.imageUrl == "")

/-- `newArt.save()`: validate, then append the document to the store;
a validation failure persists nothing. -/
def saveArt (store : List ArtDoc) (a : ArtDoc) : Except String (List ArtDoc) :=
  if artValid a then .ok (store ++ [a]) else .error "ValidationError"

/-! ## Authentication middleware -/

/-- Outcome of `jwt.verify` on a presented token: the decoded user id,
a `TokenExpiredError`, or a `JsonWebTokenError` (invalid token). -/
inductive VerifyOutcome
  | ok (userId : String)
  | expiredErr
  | invalidErr
deriving DecidableEq, Repr

/-- `optionalAuth` (`routes/artRoutes.js`): a missing or invalid token is
not an error; the request proceeds, with `req.user` set only on a valid
token. -/
def optionalAuth : Option VerifyOutcome → Option String
  | none => none
  | some (.ok u) => some u
  | some .expiredErr => none
  | some .invalidErr => none

/-- Result of the required-auth middleware: pass the request on with a
user id, or reject with a status and message. -/
inductive AuthResult
  | proceed (userId : String)
  | reject (status : Nat) (msg : String)
deriving DecidableEq, Repr

/-- The required-auth middleware (`middleware/auth.js`): no token is a
401, an expired token and an otherwise invalid token are distinct 401s. -/
def authMiddleware : Option VerifyOutcome → AuthResult
  | none => .reject 401 "No authentication token provided. Authorization denied."
  | some (.ok u) => .proceed u
  | some .expiredErr => .reject 401 "Authentication token has expired. Please log in again."
  | some .invalidErr => .reject 401 "Invalid authentication token. Authorization denied."

/-! ## Route handlers (`routes/artRoutes.js`) -/

/-- Observable outcome of a handler: HTTP status and resulting store. -/
structure HandlerOutcome where
  status : Nat
  store : List ArtDoc
deriving DecidableEq, Repr

/-- Body of `POST /api/art`. -/
structure ArtRequestBody where
  mood : Option String
  prompt : Option String
  style : Option String
  colors : Option (List String)
deriving Repr

/-- The composed `artPrompt` of the `POST /api/art` handler, with the
JavaScript `undefined`-coercion of `+=` and template literals explicit:
the result is `none` (still `undefined`) only when every branch was
skipped and `mood` was absent. -/
def composePrompt (mood prompt style : Option String)
    (colors : Option (List String)) : Option String :=
  let a1 : Option String :=
    if truthyS prompt then
      some ((if truthyS mood then jsCoerce mood ++ ", " else "") ++ jsCoerce prompt)
    else mood
  let a2 : Option String :=
    if truthyS style then
      some (jsCoerce a1 ++ (", in " ++ (jsCoerce style ++ " style")))
    else a1
  if truthyColors colors then
    some (jsCoerce a2 ++ (", with colors " ++ joinCommaSpace (colors.getD [])))
  else a2

/-- The JavaScript value passed to `generateArtFromAPI` for a composed
prompt: still-`undefined` prompts arrive as `undefined`. -/
def promptArgOfOption : Option String → PromptArg
  | none => .undef
  | some s => .str s

/-- The `new Art({ userId, mood: mood || 'Mixed', imageUrl, prompt,
style, colors })` document of the `POST /api/art` handler, with the
schema's `trim` setter and field defaults applied. -/
def newArtDoc (userId : Option String) (body : ArtRequestBody) (imageUrl : String)
    (freshId now : Nat) : ArtDoc :=
  { id := freshId
    userId := userId
    mood := trimStr (if truthyS body.mood then jsCoerce body.mood else "Mixed")
    imageUrl := imageUrl
    prompt := trimStr (body.prompt.getD "")
    style := body.style.getD "Abstract"
    colors := body.colors.getD []
    votes := 0
    collaborators := []
    createdAt := now }

/-- Shallow embedding of the `POST /api/art` handler: compose the
prompt, resolve an image URL, and only then construct and save the new
`Art` document (mood defaults to "Mixed" when falsy; schema `trim` and
defaults applied).  Any generation failure answers 500 without touching
the store; a schema validation failure answers 400. -/
def postArt (env : Env) (w : World) (store : List ArtDoc) (userId : Option String)
    (body : ArtRequestBody) (freshId : Nat) (now : Nat) : HandlerOutcome :=
  let artPrompt := composePrompt body.mood body.prompt body.style body.colors
  let gen := generateArtFromAPI env w (promptArgOfOption artPrompt)
  match gen.result with
  | .error _ => { status := 500, store := store }
  | .ok r =>
      match castImageRef r with
      | none => { status := 400, store := store }
      | some imageUrl =>
          match saveArt store (newArtDoc userId body imageUrl freshId now) with
          | .error _ => { status := 400, store := store }
          | .ok store2 => { status := 201, store := store2 }

/-- `POST /api/art/:id/vote`: find the document, 404 when absent,
otherwise increment `votes` by one and save the updated document back
(schema validation runs again on save). -/
def voteHandler (store : List ArtDoc) (i : Nat) : HandlerOutcome :=
  match store.find? (fun a => a.id == i) with
  | none => { status := 404, store := store }
  | some art =>
      let updated : ArtDoc := { art with votes := art.votes + 1 }
      if artValid updated then
        { status := 200, store := store.map (fun a => if a.id == i then updated else a) }
      else
        { status := 500, store := store }

/-- Body of `POST /api/art/collaborate`. -/
structure CollabBody where
  mood1 : Option String
  mood2 : Option String
  partnerEmail : Option String
deriving Repr

/-- The fixed collaboration prompt template
`Collaborative art blending <mood1> and <mood2>`. -/
def collabPrompt (body : CollabBody) : String :=
  "Collaborative art blending " ++
    (jsCoerce body.mood1 ++ (" and " ++ jsCoerce body.mood2))

/-- `[...new Set(xs)]`: deduplicate keeping first occurrences. -/
def jsSetDedup (l : List String) : List String :=
  l.foldl (fun acc x => if x ∈ acc then acc else acc ++ [x]) []

/-- The collaborate handler's partner resolution: look the optional
`partnerEmail` up among the registered users; an unknown email is
silently dropped (no partner id). -/
def partnerIdOf (users : List (String × String)) (body : CollabBody) : Option String :=
  match body.partnerEmail with
  | none => none
  | some e => users.lookup e

/-- The `new Art({...})` document of the collaborate handler: mood is
the template `"<mood1> & <mood2>"`, the collaborators are the requester
and the resolved partner (already made distinct before the `Set`),
with schema `trim` and defaults applied. -/
def collabArtDoc (userId partnerUserId : Option String) (body : CollabBody)
    (imageUrl : String) (freshId now : Nat) : ArtDoc :=
  { id := freshId
    userId := userId
    mood := trimStr (jsCoerce body.mood1 ++ (" & " ++ jsCoerce body.mood2))
    imageUrl := imageUrl
    prompt := trimStr (collabPrompt body)
    style := "Abstract"
    colors := []
    votes := 0
    collaborators :=
      jsSetDedup
        ((match userId with
          | some u => [u]
          | none => []) ++
         (match partnerUserId with
          | some p => if userId = some p then [] else [p]
          | none => []))
    createdAt := now }

/-- Shallow embedding of the `POST /api/art/collaborate` handler:
require both moods, look up the optional partner email among the
registered users (an unknown email is silently dropped), generate from
the fixed collaboration prompt, and save a document whose mood is
`"<mood1> & <mood2>"`.  Failures answer 400/500 without touching the
store. -/
def postCollaborate (env : Env) (w : World) (store : List ArtDoc)
    (users : List (String × String)) (userId : Option String)
    (body : CollabBody) (freshId : Nat) (now : Nat) : HandlerOutcome :=
  if !(truthyS body.mood1 && truthyS body.mood2) then
    { status := 400, store := store }
  else
    let gen := generateArtFromAPI env w (.str (collabPrompt body))
    match gen.result with
    | .error _ => { status := 500, store := store }
    | .ok r =>
        match castImageRef r with
        | none => { status := 500, store := store }
        | some imageUrl =>
            match saveArt store
                (collabArtDoc userId (partnerIdOf users body) body imageUrl
                  freshId now) with
            | .error _ => { status := 500, store := store }
            | .ok store2 => { status := 201, store := store2 }

/-! ## Concrete environments and worlds used in witnesses -/

/-- An environment with no provider configuration (mock path). -/
def emptyEnv : Env :=
  { ART_API_URL := none, ART_API_TOKEN := none, CLOUDINARY_CLOUD_NAME := none,
    CLOUDINARY_API_KEY := none, CLOUDINARY_API_SECRET := none }

/-- A fully configured environment (real path). -/
def fullEnv : Env :=
  { ART_API_URL := some "https://api.example/gen",
    ART_API_TOKEN := some "tok",
    CLOUDINARY_CLOUD_NAME := some "cloud",
    CLOUDINARY_API_KEY := some "key",
    CLOUDINARY_API_SECRET := some "secret" }

/-- A world in which both external calls succeed. -/
def okWorld : World :=
  { genResult := .ok { contentType := some "image/png", base64Data := "QUJD" },
    uploadResult := fun _ => .ok "https://res.example/mood_art_generator/img.png" }

/-- A world in which the generation call is rejected with HTTP 401. -/
def world401 : World :=
  { genResult := .error { responseStatus := some 401, code := none },
    uploadResult := fun _ => .ok "https://res.example/unused.png" }

/-! ## Theorems -/

/-- Appending to the empty string is the identity. -/
theorem empty_append_str (s : String) : "" ++ s = s := rfl

/-- An absent field is falsy. -/
theorem truthyS_none : truthyS none = false := rfl

/-- A value found by `lookup` is one of the list's second components. -/
theorem lookup_mem_snd {l : List (String × String)} {k u : String}
    (h : l.lookup k = some u) : u ∈ l.map Prod.snd := by
  induction l with
  | nil => cases h
  | cons a l ih =>
      obtain ⟨k1, v1⟩ := a
      rw [List.lookup] at h
      cases hk : (k == k1)
      · rw [hk] at h
        exact List.mem_cons_of_mem _ (ih h)
      · rw [hk] at h
        rw [List.map_cons]
        exact (Option.some.inj h) ▸ List.mem_cons_self _ _

/-- C1 counterexample: with the provider configuration missing, the
prompt "constructor" normalizes to the inherited `Object.prototype`
member name, so after the 3000 ms delay the mock branch returns the
truthy inherited `Object` constructor instead of one of the placeholder
references. -/
theorem generate_missing_config_prototype_leak :
    generateArtFromAPI emptyEnv okWorld (.str "constructor") =
      { result := .ok .objectCtorFn, calls := [], delayMs := 3000 } ∧
    cleanPrompt "constructor" ∉ mockImageUrls.map Prod.fst ∧
    ImageRef.objectCtorFn ∉
      (mockImageUrls.map Prod.snd ++ [mockDefaultUrl]).map ImageRef.url := by decide

/-- C1 amended: for every valid prompt whose normalized key is neither
of the two reachable inherited property names (`constructor` and
`__proto__`), a missing configuration value makes `generateArtFromAPI`
return the Mock Image Selector's reference — one of the eight fixed
placeholder URLs — with no external call and the 3000 ms delay; on the
two inherited keys the mock branch still issues no call and delays
3000 ms but hands back the inherited object instead of a placeholder. -/
theorem generate_missing_config_uses_mock (env : Env) (w : World) (s : String)
    (hmiss : env.ART_API_URL = none ∨ env.ART_API_TOKEN = none ∨
      env.CLOUDINARY_CLOUD_NAME = none ∨ env.CLOUDINARY_API_KEY = none ∨
      env.CLOUDINARY_API_SECRET = none)
    (hs : trimStr s ≠ "")
    (hk1 : cleanPrompt s ≠ "constructor") (hk2 : cleanPrompt s ≠ "__proto__") :
    generateArtFromAPI env w (.str s) =
      { result := .ok (selectMock s), calls := [], delayMs := 3000 } ∧
    ∃ u, selectMock s = .url u ∧
      u ∈ mockImageUrls.map Prod.snd ++ [mockDefaultUrl] := by
  have hcc : configComplete env = false := by
    rcases hmiss with h | h | h | h | h <;> simp [configComplete, h, truthyS]
  constructor
  · simp [generateArtFromAPI, hs, hcc]
  · rcases hlk : mockImageUrls.lookup (cleanPrompt s) with _ | u
    · refine ⟨mockDefaultUrl, ?_, by decide⟩
      simp [selectMock, hlk, hk1, hk2]
    · refine ⟨u, ?_, List.mem_append_left _ (lookup_mem_snd hlk)⟩
      simp [selectMock, hlk]

/-- Witness for the amended C1 at a concrete unconfigured environment
and the prompt "Sad". -/
theorem generate_missing_config_uses_mock_witness :
    ((emptyEnv.ART_API_URL = none ∨ emptyEnv.ART_API_TOKEN = none ∨
      emptyEnv.CLOUDINARY_CLOUD_NAME = none ∨ emptyEnv.CLOUDINARY_API_KEY = none ∨
      emptyEnv.CLOUDINARY_API_SECRET = none) ∧
     trimStr "Sad" ≠ "" ∧
     cleanPrompt "Sad" ≠ "constructor" ∧ cleanPrompt "Sad" ≠ "__proto__") ∧
    (generateArtFromAPI emptyEnv okWorld (.str "Sad") =
      { result := .ok (selectMock "Sad"), calls := [], delayMs := 3000 } ∧
    ∃ u, selectMock "Sad" = .url u ∧
      u ∈ mockImageUrls.map Prod.snd ++ [mockDefaultUrl]) :=
  ⟨⟨Or.inl rfl, by decide, by decide, by decide⟩,
    generate_missing_config_uses_mock emptyEnv okWorld "Sad" (Or.inl rfl)
      (by decide) (by decide) (by decide)⟩

/-- C3: an absent, non-string, or blank-after-trimming prompt makes
`generateArtFromAPI` fail with the invalid-prompt error, issuing no
external call and entering neither the mock nor the real path. -/
theorem generate_invalid_prompt_rejected (env : Env) (w : World) (p : PromptArg)
    (h : p = .undef ∨ p = .nonString ∨ ∃ s, p = .str s ∧ trimStr s = "") :
    generateArtFromAPI env w p =
      { result := .error .invalidPrompt, calls := [], delayMs := 0 } := by
  rcases h with h | h | ⟨s, hp, hs⟩
  · subst h; rfl
  · subst h; rfl
  · subst hp; simp [generateArtFromAPI, hs]

/-- Witness for C3 at a whitespace-only prompt. -/
theorem generate_invalid_prompt_rejected_witness :
    ((PromptArg.str "   ") = .undef ∨ (PromptArg.str "   ") = .nonString ∨
      ∃ s, (PromptArg.str "   ") = .str s ∧ trimStr s = "") ∧
    generateArtFromAPI fullEnv okWorld (.str "   ") =
      { result := .error .invalidPrompt, calls := [], delayMs := 0 } :=
  ⟨Or.inr (Or.inr ⟨"   ", rfl, by decide⟩),
    generate_invalid_prompt_rejected fullEnv okWorld (.str "   ")
      (Or.inr (Or.inr ⟨"   ", rfl, by decide⟩))⟩

/-- The prompt-composition rule exactly as the specification and claim
state it: `"<mood>, <prompt>"` when both are present, the present one
alone otherwise (an empty field counting as absent), then
`", in <style> style"` when a style is present, then
`", with colors <comma-space-joined colors>"` when the color list is
non-empty. -/
def claimComposedPrompt (mood prompt style : Option String)
    (colors : Option (List String)) : String :=
  let base :=
    if truthyS mood && truthyS prompt then
      (jsCoerce mood ++ ", ") ++ jsCoerce prompt
    else if truthyS mood then jsCoerce mood
    else if truthyS prompt then jsCoerce prompt
    else ""
  let withStyle :=
    if truthyS style then base ++ (", in " ++ (jsCoerce style ++ " style")) else base
  if truthyColors colors then
    withStyle ++ (", with colors " ++ joinCommaSpace (colors.getD []))
  else withStyle

/-- C4 counterexample: when mood and prompt are both absent but a style
is given, the handler's composition concatenates onto the JavaScript
`undefined` value and produces "undefined, in Abstract style", which is
not the concatenation the claim specifies. -/
theorem composePrompt_undefined_leak :
    composePrompt none none (some "Abstract") none = some "undefined, in Abstract style" ∧
    claimComposedPrompt none none (some "Abstract") none = ", in Abstract style" ∧
    composePrompt none none (some "Abstract") none ≠
      some (claimComposedPrompt none none (some "Abstract") none) := by decide

/-- C4 amended: whenever the mood field is present (even empty) or the
freeform prompt is non-empty — i.e. except when an absent mood meets an
absent or empty prompt — the composed prompt follows the claim's fixed
order and separators exactly. -/
theorem composePrompt_follows_claim (mood prompt style : Option String)
    (colors : Option (List String))
    (h : mood ≠ none ∨ truthyS prompt = true) :
    composePrompt mood prompt style colors =
      some (claimComposedPrompt mood prompt style colors) := by
  have hbase :
      (if truthyS prompt then
        some ((if truthyS mood then jsCoerce mood ++ ", " else "") ++ jsCoerce prompt)
      else mood) =
      some (if truthyS mood && truthyS prompt then
          (jsCoerce mood ++ ", ") ++ jsCoerce prompt
        else if truthyS mood then jsCoerce mood
        else if truthyS prompt then jsCoerce prompt
        else "") := by
    match mood, h with
    | none, h =>
        have hq : truthyS prompt = true := h.resolve_left (fun hn => hn rfl)
        simp [hq, truthyS_none, empty_append_str]
    | some m, _ =>
        by_cases hq : truthyS prompt
        · by_cases hp : truthyS (some m) <;>
            simp [hp, hq, jsCoerce, empty_append_str]
        · by_cases hp : truthyS (some m)
          · simp [hp, hq, jsCoerce]
          · have hm0 : m = "" := by
              simpa [truthyS] using hp
            simp [hp, hq, hm0, jsCoerce]
  simp only [composePrompt, claimComposedPrompt]
  rw [hbase]
  by_cases hs : truthyS style <;> by_cases hc : truthyColors colors <;>
    simp [hs, hc, jsCoerce]

/-- Witness for the amended C4 at the claim's own example:
mood "Happy", empty prompt, style "Abstract", colors red and blue. -/
theorem composePrompt_follows_claim_witness :
    ((some "Happy" : Option String) ≠ none ∨ truthyS (some "") = true) ∧
    composePrompt (some "Happy") (some "") (some "Abstract") (some ["red", "blue"]) =
      some (claimComposedPrompt (some "Happy") (some "") (some "Abstract")
        (some ["red", "blue"])) ∧
    composePrompt (some "Happy") (some "") (some "Abstract") (some ["red", "blue"]) =
      some "Happy, in Abstract style, with colors red, blue" :=
  ⟨Or.inl (by decide),
    composePrompt_follows_claim (some "Happy") (some "") (some "Abstract")
      (some ["red", "blue"]) (Or.inl (by decide)),
    by decide⟩

/-- A key outside the first components of an association list is never
found by `lookup`. -/
theorem lookup_eq_none_of_not_mem_fst {l : List (String × String)} {k : String}
    (h : k ∉ l.map Prod.fst) : l.lookup k = none := by
  induction l with
  | nil => rfl
  | cons a l ih =>
      simp only [List.map_cons, List.mem_cons] at h
      push_neg at h
      have hk : (k == a.1) = false := beq_eq_false_iff_ne.mpr h.1
      cases a
      simp only [List.lookup, hk]
      exact ih h.2

/-- C5 counterexample: "constructor" and "__proto__" normalize to keys
outside the 7-keyword mapping, yet the JS property read hits the truthy
inherited `Object.prototype` members, so these unmatched keys do not
yield the default placeholder reference. -/
theorem selectMock_prototype_counterexample :
    cleanPrompt "constructor" ∉ mockImageUrls.map Prod.fst ∧
    selectMock "constructor" ≠ .url mockDefaultUrl ∧
    selectMock "constructor" = .objectCtorFn ∧
    cleanPrompt "__proto__" ∉ mockImageUrls.map Prod.fst ∧
    selectMock "__proto__" = .objectProtoObj := by decide

/-- C5 amended: the Mock Image Selector is a pure deterministic function
of the prompt — it lowercases, takes the substring before the first
comma, and trims; each of the 7 known mood keywords maps to its own
fixed placeholder reference, all 8 references (including the default)
are pairwise distinct, and any other normalized key, the empty string
included, yields the default reference, except the two inherited
prototype member names `constructor` and `__proto__`, which yield the
truthy inherited `Object.prototype` members instead. -/
theorem selectMock_pure_mapping :
    (∀ p, cleanPrompt p = trimStr (beforeFirstComma (lowerStr p))) ∧
    selectMock "happy" = .url "https://placehold.co/600x450/FFD700/000000?text=Happy+Art" ∧
    selectMock "sad" = .url "https://placehold.co/600x450/87CEEB/FFFFFF?text=Sad+Art" ∧
    selectMock "calm" = .url "https://placehold.co/600x450/90EE90/000000?text=Calm+Art" ∧
    selectMock "excited" = .url "https://placehold.co/600x450/FF6347/FFFFFF?text=Excited+Art" ∧
    selectMock "angry" = .url "https://placehold.co/600x450/DC143C/FFFFFF?text=Angry+Art" ∧
    selectMock "inspired" = .url "https://placehold.co/600x450/BA55D3/FFFFFF?text=Inspired+Art" ∧
    selectMock "mixed" = .url "https://placehold.co/600x450/CCCCCC/000000?text=Mixed+Art" ∧
    (mockImageUrls.map Prod.snd ++ [mockDefaultUrl]).Nodup ∧
    selectMock "" = .url mockDefaultUrl ∧
    (∀ p, cleanPrompt p ∉ mockImageUrls.map Prod.fst →
      cleanPrompt p ≠ "constructor" → cleanPrompt p ≠ "__proto__" →
      selectMock p = .url mockDefaultUrl) ∧
    (∀ p, cleanPrompt p = "constructor" ∨ cleanPrompt p = "__proto__" →
      selectMock p = .objectCtorFn ∨ selectMock p = .objectProtoObj) ∧
    (∀ p q, p = q → selectMock p = selectMock q) := by
  refine ⟨fun p => rfl, by decide, by decide, by decide, by decide, by decide, by decide,
    by decide, by decide, by decide, fun p hp h1 h2 => ?_, fun p hpc => ?_,
    fun p q hpq => by rw [hpq]⟩
  · simp [selectMock, lookup_eq_none_of_not_mem_fst hp, h1, h2]
  · rcases hpc with hc | hc
    · have hlk : mockImageUrls.lookup "constructor" = none := by decide
      exact Or.inl (by simp [selectMock, hc, hlk])
    · have hlk : mockImageUrls.lookup "__proto__" = none := by decide
      exact Or.inr (by simp [selectMock, hc, hlk])

/-- Witness for the amended C5 at an unmatched key: a prompt
normalizing to "joyful" is not a keyword nor an inherited name and
falls back to the default. -/
theorem selectMock_pure_mapping_witness :
    cleanPrompt "Joyful, bright morning" ∉ mockImageUrls.map Prod.fst ∧
    cleanPrompt "Joyful, bright morning" ≠ "constructor" ∧
    cleanPrompt "Joyful, bright morning" ≠ "__proto__" ∧
    selectMock "Joyful, bright morning" = .url mockDefaultUrl :=
  ⟨by decide, by decide, by decide,
    selectMock_pure_mapping.2.2.2.2.2.2.2.2.2.2.1
      "Joyful, bright morning" (by decide) (by decide) (by decide)⟩

/-- C2: on the real path every failure of the generation or upload call
is surfaced as exactly one classified error and neither call is retried:
a 401 response classifies as the authentication failure, a 429 response
as rate-limited, a connection-refused or DNS failure (no response) as
the connectivity failure, and anything else as the generic generation
failure. -/
theorem real_path_failure_classified_once (env : Env) (w : World) (s : String)
    (hc : configComplete env = true) (hs : trimStr s ≠ "") :
    (∀ e, w.genResult = .error e →
        generateArtFromAPI env w (.str s) =
          { result := .error (.api (classifyApiError e)), calls := [.genApi], delayMs := 0 }) ∧
    (∀ resp e, w.genResult = .ok resp → w.uploadResult (dataURIOf resp) = .error e →
        generateArtFromAPI env w (.str s) =
          { result := .error (.api (classifyApiError e)),
            calls := [.genApi, .upload], delayMs := 0 }) ∧
    (∀ e : JsError, e.responseStatus = some 401 → classifyApiError e = .authFailure) ∧
    (∀ e : JsError, e.responseStatus = some 429 → classifyApiError e = .rateLimited) ∧
    (∀ e : JsError, e.responseStatus = none →
        e.code = some "ECONNREFUSED" ∨ e.code = some "ENOTFOUND" →
        classifyApiError e = .connectivityFailure) ∧
    (∀ e : JsError, e.responseStatus ≠ some 401 → e.responseStatus ≠ some 429 →
        e.code ≠ some "ECONNREFUSED" → e.code ≠ some "ENOTFOUND" →
        classifyApiError e = .generationFailure) ∧
    (∀ k : CallKind, (generateArtFromAPI env w (.str s)).calls.count k ≤ 1) := by
  refine ⟨?_, ?_, ?_, ?_, ?_, ?_, ?_⟩
  · intro e he
    simp [generateArtFromAPI, hs, hc, he]
  · intro resp e hresp hup
    simp [generateArtFromAPI, hs, hc, hresp, hup]
  · intro e h
    simp [classifyApiError, h]
  · intro e h
    simp [classifyApiError, h]
  · intro e h hcode
    have h401 : e.responseStatus ≠ some 401 := by simp [h]
    have h429 : e.responseStatus ≠ some 429 := by simp [h]
    simp [classifyApiError, h401, h429, hcode]
  · intro e h1 h2 h3 h4
    simp [classifyApiError, h1, h2, h3, h4]
  · intro k
    rcases hg : w.genResult with e | resp
    · have hcall : (generateArtFromAPI env w (.str s)).calls = [.genApi] := by
        simp [generateArtFromAPI, hs, hc, hg]
      rw [hcall]
      cases k <;> decide
    · rcases hu : w.uploadResult (dataURIOf resp) with e | url
      · have hcall : (generateArtFromAPI env w (.str s)).calls = [.genApi, .upload] := by
          simp [generateArtFromAPI, hs, hc, hg, hu]
        rw [hcall]
        cases k <;> decide
      · have hcall : (generateArtFromAPI env w (.str s)).calls = [.genApi, .upload] := by
          simp [generateArtFromAPI, hs, hc, hg, hu]
        rw [hcall]
        cases k <;> decide

/-- Witness for C2 at a fully configured environment and a 401-rejected
generation call. -/
theorem real_path_failure_classified_once_witness :
    configComplete fullEnv = true ∧ trimStr "Sad" ≠ "" ∧
    world401.genResult = .error { responseStatus := some 401, code := none } ∧
    generateArtFromAPI fullEnv world401 (.str "Sad") =
      { result := .error (.api (classifyApiError
          { responseStatus := some 401, code := none })),
        calls := [.genApi], delayMs := 0 } :=
  ⟨by decide, by decide, rfl,
    (real_path_failure_classified_once fullEnv world401 "Sad" (by decide) (by decide)).1
      { responseStatus := some 401, code := none } rfl⟩

/-- A `POST /api/art` request either leaves the store unchanged or
appends exactly the one new document built from some resolved URL. -/
theorem postArt_store_shape (env : Env) (w : World) (store : List ArtDoc)
    (userId : Option String) (body : ArtRequestBody) (freshId now : Nat) :
    (postArt env w store userId body freshId now).store = store ∨
    ∃ url, (postArt env w store userId body freshId now).store =
      store ++ [newArtDoc userId body url freshId now] := by
  rcases hg : (generateArtFromAPI env w (promptArgOfOption
      (composePrompt body.mood body.prompt body.style body.colors))).result with e | r
  · exact Or.inl (by simp [postArt, hg])
  · rcases hcast : castImageRef r with _ | url
    · exact Or.inl (by simp [postArt, hg, hcast])
    · by_cases hv : artValid (newArtDoc userId body url freshId now) = true
      · exact Or.inr ⟨url, by simp [postArt, saveArt, hg, hcast, hv]⟩
      · exact Or.inl (by simp [postArt, saveArt, hg, hcast, hv])

/-- A `POST /api/art/collaborate` request either leaves the store
unchanged or appends exactly the one collaboration document. -/
theorem postCollaborate_store_shape (env : Env) (w : World) (store : List ArtDoc)
    (users : List (String × String)) (userId : Option String)
    (body : CollabBody) (freshId now : Nat) :
    (postCollaborate env w store users userId body freshId now).store = store ∨
    ∃ url, (postCollaborate env w store users userId body freshId now).store =
      store ++ [collabArtDoc userId (partnerIdOf users body) body url freshId now] := by
  cases hb : (truthyS body.mood1 && truthyS body.mood2)
  · exact Or.inl (by simp [postCollaborate, hb])
  · rcases hg : (generateArtFromAPI env w (.str (collabPrompt body))).result with e | r
    · exact Or.inl (by simp [postCollaborate, hb, hg])
    · rcases hcast : castImageRef r with _ | url
      · exact Or.inl (by simp [postCollaborate, hb, hg, hcast])
      · by_cases hv : artValid
          (collabArtDoc userId (partnerIdOf users body) body url freshId now) = true
        · exact Or.inr ⟨url, by simp [postCollaborate, saveArt, hb, hg, hcast, hv]⟩
        · exact Or.inl (by simp [postCollaborate, saveArt, hb, hg, hcast, hv])

/-- C6: on both generation paths, a failed image resolution persists
nothing — the store after the request is exactly the store before. -/
theorem no_persist_on_generation_failure (env : Env) (w : World) (store : List ArtDoc)
    (userId : Option String) (freshId now : Nat) :
    (∀ (body : ArtRequestBody) (e : GenFailure),
        (generateArtFromAPI env w (promptArgOfOption
            (composePrompt body.mood body.prompt body.style body.colors))).result =
          .error e →
        (postArt env w store userId body freshId now).store = store) ∧
    (∀ (users : List (String × String)) (body : CollabBody) (e : GenFailure),
        (generateArtFromAPI env w (.str (collabPrompt body))).result = .error e →
        (postCollaborate env w store users userId body freshId now).store = store) := by
  constructor
  · intro body e he
    simp [postArt, he]
  · intro users body e he
    cases hb : (truthyS body.mood1 && truthyS body.mood2)
    · simp [postCollaborate, hb]
    · simp [postCollaborate, hb, he]

/-- Witness for C6: with a 401-rejected generation call, a concrete
`POST /api/art` request leaves an empty store empty. -/
theorem no_persist_on_generation_failure_witness :
    (generateArtFromAPI fullEnv world401 (promptArgOfOption
        (composePrompt (some "Sad") none none none))).result =
      .error (.api .authFailure) ∧
    (postArt fullEnv world401 [] none
      { mood := some "Sad", prompt := none, style := none, colors := none } 1 0).store = [] :=
  ⟨by decide,
    (no_persist_on_generation_failure fullEnv world401 [] none 1 0).1
      { mood := some "Sad", prompt := none, style := none, colors := none }
      (.api .authFailure) (by decide)⟩

/-- C7 (code bug): the collaborate handler's mood `"Happy & Sad"` is
outside the schema's enumerated mood set, so even though image
resolution succeeds (here with the default mock reference), the save is
rejected, the request answers 500, and nothing is persisted — the
collaboration path can never produce a persisted record. -/
theorem collaborate_mood_never_in_enum :
    moodEnumValues.contains "Happy & Sad" = false ∧
    trimStr (jsCoerce (some "Happy") ++ (" & " ++ jsCoerce (some "Sad"))) = "Happy & Sad" ∧
    (generateArtFromAPI emptyEnv okWorld
        (.str (collabPrompt
          { mood1 := some "Happy", mood2 := some "Sad", partnerEmail := none }))).result =
      .ok (.url mockDefaultUrl) ∧
    postCollaborate emptyEnv okWorld [] [] none
        { mood1 := some "Happy", mood2 := some "Sad", partnerEmail := none } 1 0 =
      { status := 500, store := [] } := by decide

/-- A default document used to pick elements out of concrete stores. -/
def blankDoc : ArtDoc :=
  { id := 0, userId := none, mood := "", imageUrl := "", prompt := "", style := "",
    colors := [], votes := 0, collaborators := [], createdAt := 0 }

/-- C10: when the mood field is absent from a `POST /api/art` request,
every document the request adds to the store has mood exactly "Mixed". -/
theorem postArt_defaults_mood_mixed (env : Env) (w : World) (store : List ArtDoc)
    (userId : Option String) (body : ArtRequestBody) (freshId now : Nat)
    (hm : body.mood = none) :
    ∀ d ∈ (postArt env w store userId body freshId now).store,
      d ∈ store ∨ d.mood = "Mixed" := by
  intro d hd
  rcases postArt_store_shape env w store userId body freshId now with h | ⟨url, h⟩
  · rw [h] at hd
    exact Or.inl hd
  · rw [h] at hd
    rcases List.mem_append.mp hd with hd | hd
    · exact Or.inl hd
    · right
      have hde : d = newArtDoc userId body url freshId now := by simpa using hd
      rw [hde]
      show trimStr (if truthyS body.mood then jsCoerce body.mood else "Mixed") = "Mixed"
      rw [hm]
      decide

/-- Witness for C10: a concrete prompt-only request persists one
document and its mood is "Mixed". -/
theorem postArt_defaults_mood_mixed_witness :
    ((postArt emptyEnv okWorld [] none
        { mood := none, prompt := some "a sunset", style := none, colors := none }
        1 0).store.headD blankDoc ∈ ([] : List ArtDoc)) ∨
    ((postArt emptyEnv okWorld [] none
        { mood := none, prompt := some "a sunset", style := none, colors := none }
        1 0).store.headD blankDoc).mood = "Mixed" :=
  postArt_defaults_mood_mixed emptyEnv okWorld [] none
    { mood := none, prompt := some "a sunset", style := none, colors := none } 1 0 rfl
    _ (by decide)

/-- C9: on optional-auth endpoints a missing or invalid token is never
rejected — the handler simply runs with no user association — while the
required-auth middleware answers 401 for a missing, expired, or
otherwise invalid token, with distinct messages for the expired and
invalid cases. -/
theorem optional_auth_anonymous_required_auth_401 :
    optionalAuth none = none ∧
    optionalAuth (some .expiredErr) = none ∧
    optionalAuth (some .invalidErr) = none ∧
    (∀ u, optionalAuth (some (.ok u)) = some u) ∧
    (∀ t, (t = none ∨ t = some VerifyOutcome.expiredErr ∨
        t = some VerifyOutcome.invalidErr) →
      ∀ (env : Env) (w : World) (store : List ArtDoc) (body : ArtRequestBody)
        (freshId now : Nat),
        postArt env w store (optionalAuth t) body freshId now =
          postArt env w store none body freshId now) ∧
    authMiddleware none =
      .reject 401 "No authentication token provided. Authorization denied." ∧
    authMiddleware (some .expiredErr) =
      .reject 401 "Authentication token has expired. Please log in again." ∧
    authMiddleware (some .invalidErr) =
      .reject 401 "Invalid authentication token. Authorization denied." ∧
    "Authentication token has expired. Please log in again." ≠
      "Invalid authentication token. Authorization denied." ∧
    (∀ u, authMiddleware (some (.ok u)) = .proceed u) := by
  refine ⟨rfl, rfl, rfl, fun u => rfl, ?_, rfl, rfl, rfl, by decide, fun u => rfl⟩
  intro t ht env w store body freshId now
  rcases ht with h | h | h <;> subst h <;> rfl

/-- Witness for C9: a concrete request with an invalid token behaves
exactly like the anonymous request. -/
theorem optional_auth_anonymous_required_auth_401_witness :
    ((some VerifyOutcome.invalidErr : Option VerifyOutcome) = none ∨
      (some VerifyOutcome.invalidErr : Option VerifyOutcome) =
        some VerifyOutcome.expiredErr ∨
      (some VerifyOutcome.invalidErr : Option VerifyOutcome) =
        some VerifyOutcome.invalidErr) ∧
    postArt emptyEnv okWorld [] (optionalAuth (some VerifyOutcome.invalidErr))
        { mood := some "Happy", prompt := none, style := none, colors := none } 1 0 =
      postArt emptyEnv okWorld [] none
        { mood := some "Happy", prompt := none, style := none, colors := none } 1 0 :=
  ⟨Or.inr (Or.inr rfl),
    optional_auth_anonymous_required_auth_401.2.2.2.2.1
      (some VerifyOutcome.invalidErr) (Or.inr (Or.inr rfl)) emptyEnv okWorld []
      { mood := some "Happy", prompt := none, style := none, colors := none } 1 0⟩

/-- `find?` looks in the left part of an append first. -/
theorem find?_append_left {l1 l2 : List ArtDoc} {p : ArtDoc → Bool} {a : ArtDoc}
    (h : l1.find? p = some a) : (l1 ++ l2).find? p = some a := by
  rw [List.find?_append, h]
  rfl

/-- Replacing the documents whose id is `i` makes `find?` at `i` return
the replacement, provided some document with id `i` was found before. -/
theorem find?_map_overwrite_same {store : List ArtDoc} {i : Nat} {a u : ArtDoc}
    (hu : u.id = i) (h : store.find? (fun x => x.id == i) = some a) :
    (store.map fun x => if x.id == i then u else x).find? (fun x => x.id == i) =
      some u := by
  have hu' : (u.id == i) = true := beq_iff_eq.mpr hu
  induction store with
  | nil => cases h
  | cons b l ih =>
      by_cases hb : (b.id == i) = true
      · rw [List.map_cons, if_pos hb, List.find?_cons]
        simp only [hu']
      · have hb' : (b.id == i) = false := by simpa using hb
        have h' : l.find? (fun x => x.id == i) = some a := by
          simpa [List.find?_cons, hb'] using h
        rw [List.map_cons, if_neg hb, List.find?_cons]
        simp only [hb']
        exact ih h'

/-- Replacing the documents whose id is `i` does not change `find?` at
any other id. -/
theorem find?_map_overwrite_ne {store : List ArtDoc} {i j : Nat} {u : ArtDoc}
    (hu : u.id = i) (hij : j ≠ i) :
    (store.map fun x => if x.id == i then u else x).find? (fun x => x.id == j) =
      store.find? (fun x => x.id == j) := by
  have huj : (u.id == j) = false :=
    beq_eq_false_iff_ne.mpr (by rw [hu]; exact fun hh => hij hh.symm)
  induction store with
  | nil => rfl
  | cons b l ih =>
      by_cases hb : (b.id == i) = true
      · have hbj : (b.id == j) = false :=
          beq_eq_false_iff_ne.mpr
            (by rw [beq_iff_eq.mp hb]; exact fun hh => hij hh.symm)
        simp only [List.map_cons, if_pos hb, List.find?_cons, huj, hbj]
        exact ih
      · simp only [List.map_cons, if_neg hb, List.find?_cons]
        cases hbj : (b.id == j)
        · simp only [hbj]
          exact ih
        · simp only [hbj]

/-- C8: a successful vote answers 200, the voted record's counter grows
by exactly one with every other field untouched, other records are
untouched, a vote on an unknown id answers 404 leaving the store
unchanged, and no operation of the system (vote, art creation,
collaboration) ever decreases any stored record's vote counter. -/
theorem vote_increments_exactly_once (store : List ArtDoc) (i : Nat) :
    (store.find? (fun a => a.id == i) = none →
      voteHandler store i = { status := 404, store := store }) ∧
    (∀ art, store.find? (fun a => a.id == i) = some art → artValid art = true →
      (voteHandler store i).status = 200 ∧
      (voteHandler store i).store.find? (fun a => a.id == i) =
        some { art with votes := art.votes + 1 } ∧
      (∀ b ∈ store, ¬ ((b.id == i) = true) → b ∈ (voteHandler store i).store)) ∧
    (∀ j a, store.find? (fun x => x.id == j) = some a →
      ∃ b, (voteHandler store i).store.find? (fun x => x.id == j) = some b ∧
        a.votes ≤ b.votes) ∧
    (∀ (env : Env) (w : World) (userId : Option String) (body : ArtRequestBody)
        (freshId now j : Nat) (a : ArtDoc),
      store.find? (fun x => x.id == j) = some a →
      ∃ b, (postArt env w store userId body freshId now).store.find?
          (fun x => x.id == j) = some b ∧ a.votes ≤ b.votes) ∧
    (∀ (env : Env) (w : World) (users : List (String × String))
        (userId : Option String) (cb : CollabBody) (freshId now j : Nat) (a : ArtDoc),
      store.find? (fun x => x.id == j) = some a →
      ∃ b, (postCollaborate env w store users userId cb freshId now).store.find?
          (fun x => x.id == j) = some b ∧ a.votes ≤ b.votes) := by
  refine ⟨?_, ?_, ?_, ?_, ?_⟩
  · intro h
    simp [voteHandler, h]
  · intro art h hv
    have hvu : artValid { art with votes := art.votes + 1 } = true := hv
    have heq : voteHandler store i =
        { status := 200,
          store := store.map fun x =>
            if x.id == i then { art with votes := art.votes + 1 } else x } := by
      simp [voteHandler, h, hvu]
    have hbt := List.find?_some h
    have hai : art.id = i := beq_iff_eq.mp hbt
    refine ⟨by rw [heq], ?_, ?_⟩
    · rw [heq]
      exact @find?_map_overwrite_same store i art
        { art with votes := art.votes + 1 } hai h
    · intro b hb hbi
      rw [heq]
      have hfb : (fun x => if x.id == i then { art with votes := art.votes + 1 } else x) b
          = b := if_neg hbi
      exact hfb ▸ List.mem_map_of_mem _ hb
  · intro j a h
    rcases hfi : store.find? (fun x => x.id == i) with _ | art
    · have heq : voteHandler store i = { status := 404, store := store } := by
        simp [voteHandler, hfi]
      exact ⟨a, by rw [heq]; exact h, Nat.le_refl _⟩
    · by_cases hv : artValid { art with votes := art.votes + 1 } = true
      · have heq : voteHandler store i =
            { status := 200,
              store := store.map fun x =>
                if x.id == i then { art with votes := art.votes + 1 } else x } := by
          simp [voteHandler, hfi, hv]
        have hbt := List.find?_some hfi
        have hai : art.id = i := beq_iff_eq.mp hbt
        by_cases hij : j = i
        · subst hij
          have haa : a = art := by
            have hfi2 := hfi
            rw [h] at hfi2
            exact Option.some.inj hfi2
          refine ⟨{ art with votes := art.votes + 1 }, ?_, ?_⟩
          · rw [heq]
            exact @find?_map_overwrite_same store j art
              { art with votes := art.votes + 1 } hai hfi
          · rw [haa]
            exact Nat.le_succ _
        · refine ⟨a, ?_, Nat.le_refl _⟩
          rw [heq]
          rw [@find?_map_overwrite_ne store i j
            { art with votes := art.votes + 1 } hai hij]
          exact h
      · have heq : voteHandler store i = { status := 500, store := store } := by
          simp [voteHandler, hfi, hv]
        exact ⟨a, by rw [heq]; exact h, Nat.le_refl _⟩
  · intro env w userId body freshId now j a h
    rcases postArt_store_shape env w store userId body freshId now with hsh | ⟨url, hsh⟩
    · exact ⟨a, by rw [hsh]; exact h, Nat.le_refl _⟩
    · exact ⟨a, by rw [hsh]; exact find?_append_left h, Nat.le_refl _⟩
  · intro env w users userId cb freshId now j a h
    rcases postCollaborate_store_shape env w store users userId cb freshId now with
      hsh | ⟨url, hsh⟩
    · exact ⟨a, by rw [hsh]; exact h, Nat.le_refl _⟩
    · exact ⟨a, by rw [hsh]; exact find?_append_left h, Nat.le_refl _⟩

/-- A concrete stored document used by the C8 witness. -/
def sampleDoc : ArtDoc :=
  { id := 1, userId := none, mood := "Happy",
    imageUrl := "https://placehold.co/600x450/FFD700/000000?text=Happy+Art",
    prompt := "", style := "Abstract", colors := [], votes := 0,
    collaborators := [], createdAt := 0 }

/-- Witness for C8: voting on the one stored document answers 200 and
stores it back with its counter at one. -/
theorem vote_increments_exactly_once_witness :
    (voteHandler [sampleDoc] 1).status = 200 ∧
    (voteHandler [sampleDoc] 1).store.find? (fun a => a.id == 1) =
      some { sampleDoc with votes := sampleDoc.votes + 1 } :=
  ⟨((vote_increments_exactly_once [sampleDoc] 1).2.1 sampleDoc (by decide) (by decide)).1,
    ((vote_increments_exactly_once [sampleDoc] 1).2.1 sampleDoc (by decide)
      (by decide)).2.1⟩

end MoodArt
